import Mathlib

/-!
Verification development for the MedCall hospital-operations backend
(`core/models.py`, `core/utils.py`, `core/signals.py`, `core/views.py`,
`accounts/models.py`).

Modelling conventions.
* The Django ORM persistence layer is the external collaborator of the spec:
  a database is a `Store` holding lists of records, querysets are list
  filters, `save`/`create` are functional updates that afterwards run the
  `post_save` receivers registered in `core/signals.py` (in their definition
  order), and an exception raised by a receiver propagates to the caller
  while the already-committed row write persists (Django autocommit).
* `select_related` / `prefetch_related` over valid relation names are fetch
  hints and are not modelled; a restricted `select_related` naming an
  invalid field (the active `EmergencyViewSet` queryset does, views.py
  line 421) raises `FieldError` whenever that queryset is evaluated, and
  is modelled so.
* uuid primary keys are modelled as `Nat` identifiers supplied explicitly;
  timestamps from the clock are `Nat`; durations and rates are `ℚ`.
* Python attribute lookups that hit an attribute the model classes do not
  define (for example `emergency.assigned_staff`, `staff.role`) raise
  `AttributeError`; they are modelled by explicit `attr_...` functions
  returning `Except ErrKind _`.
-/

/-- Failure kinds. `attributeError`, `fieldError`, `valueError`, `nameError`
are Python/Django exceptions the code can raise. `invalidTransitionError`,
`conflictError`, `notFoundError` come from the specification's error
taxonomy (§7) so that spec-level claims about them can be stated. -/
inductive ErrKind where
  | attributeError
  | fieldError
  | valueError
  | nameError
  | invalidTransitionError
  | conflictError
  | notFoundError
deriving DecidableEq, Repr

/-- `core.models.Room` (fields relevant to the verified behaviour). -/
structure Room where
  rid : Nat
  room_number : String
  ward : Option String := none
  bed_count : Nat := 1
  is_occupied : Bool := false
  patient : Option Nat := none
  last_call_priority : Option String := none
deriving DecidableEq, Repr

/-- `core.models.Patient`. -/
structure Patient where
  pid : Nat
  full_name : String := ""
  medical_record_number : Option String := none
deriving DecidableEq, Repr

/-- `core.models.Staff`: wraps a user (`user` is the user id). -/
structure Staff where
  sid : Nat
  user : Nat
  department : Option String := none
  is_available : Bool := true
deriving DecidableEq, Repr

/-- `core.models.Emergency`.  Note: the model defines `assigned_user`
(a User foreign key); it defines no `assigned_staff` attribute. -/
structure Emergency where
  eid : Nat
  room : Nat
  patient : Option Nat := none
  description : String := ""
  priority : String := "medium"
  status : String := "pending"
  created_by : Option Nat := none
  assigned_user : Option Nat := none
  accepted_by : Option Nat := none
  created_at : Nat := 0
  acknowledged_at : Option Nat := none
  accepted_at : Option Nat := none
  reached_at : Option Nat := none
  resolved_at : Option Nat := none
  escalated_to : Option Nat := none
deriving DecidableEq, Repr

/-- `core.models.Notification`.  `user`/`role` are optional targets,
`emergency` an optional emergency id. -/
structure Notification where
  user : Option Nat := none
  role : Option Nat := none
  emergency : Option Nat := none
  ntype : String := "new_call"
  message : String := ""
  is_read : Bool := false
  created_at : Nat := 0
  read_at : Option Nat := none
deriving DecidableEq, Repr

/-- `core.models.StaffPerformance`: cached aggregate, keyed by a user
(`staff = models.OneToOneField(User, ...)`). -/
structure StaffPerformance where
  staff : Nat
  total_assigned : Nat := 0
  resolved : Nat := 0
  resolution_rate : ℚ := 0
  avg_response_time : ℚ := 0
  avg_resolution_time : ℚ := 0
  satisfaction_percent : ℚ := 0
  rating : ℚ := 0
  last_updated : Nat := 0
deriving DecidableEq, Repr

/-- The persistent store (the database seen through the ORM). -/
structure Store where
  rooms : List Room := []
  patients : List Patient := []
  staffs : List Staff := []
  emergencies : List Emergency := []
  notifs : List Notification := []
  perfs : List StaffPerformance := []
deriving DecidableEq, Repr

/-- Replace the emergency row with the same id (`instance.save()` on an
existing row). -/
def Store.updateEmergency (s : Store) (e : Emergency) : Store :=
  { s with emergencies := s.emergencies.map fun x => if x.eid = e.eid then e else x }

/-- Replace the room row with the same id. -/
def Store.updateRoom (s : Store) (r : Room) : Store :=
  { s with rooms := s.rooms.map fun x => if x.rid = r.rid then r else x }

/-- `instance.room.room_number`: follow the (required) room foreign key. -/
def Store.roomNumberOf (s : Store) (rid : Nat) : String :=
  ((s.rooms.find? fun r => r.rid = rid).map Room.room_number).getD ""

/-- Python attribute access `emergency.assigned_staff`.  The `Emergency`
model in `core/models.py` defines no field, property or reverse accessor
named `assigned_staff` (the field is `assigned_user`), so this lookup
raises `AttributeError`. -/
def Emergency.attr_assigned_staff (_e : Emergency) : Except ErrKind (Option Staff) :=
  .error .attributeError

/-- Python attribute access `staff.role`.  The `Staff` model in
`core/models.py` defines no `role` attribute (roles live in the separate
`accounts.UserRole` table), so this lookup raises `AttributeError`. -/
def Staff.attr_role (_s : Staff) : Except ErrKind (Option Nat) :=
  .error .attributeError

/-- Python attribute access `room.room` in
`core/signals.py::handle_room_notifications` (`instance.room.room_number`):
the `Room` model defines no `room` attribute, so it raises
`AttributeError`. -/
def Room.attr_room (_r : Room) : Except ErrKind Room :=
  .error .attributeError

/-- `User.objects.filter(role__name__iexact="admin")` in
`core/signals.py`: the `accounts.User` model has no `role` field or
relation (only the reverse accessor `user_role` of `accounts.UserRole`),
so resolving the lookup raises `FieldError`. -/
def adminUsersByRole (_s : Store) : Except ErrKind (List Nat) :=
  .error .fieldError

/-- `Notification.objects.create(...)` / the `Notification(...)`
constructor: `is_read` defaults to `False` and `read_at` to `None`
(`core/models.py`). -/
def mkNotification (user role emergency : Option Nat) (ntype message : String)
    (tnow : Nat) : Notification :=
  { user := user, role := role, emergency := emergency, ntype := ntype,
    message := message, is_read := false, created_at := tnow, read_at := none }

/-- `core.utils.send_notification`: create one notification row. -/
def send_notification (s : Store) (message : String) (emergency : Option Nat)
    (user : Option Nat) (role : Option Nat) (ntype : String) (tnow : Nat) : Store :=
  { s with notifs := s.notifs ++ [mkNotification user role emergency ntype message tnow] }

/-!  ### Performance recalculation (`core/utils.py::recalc_staff_performance`) -/

/-- `Emergency.objects.filter(assigned_user=user)`. -/
def assignedQs (ems : List Emergency) (user : Nat) : List Emergency :=
  ems.filter fun e => e.assigned_user = some user

/-- `total_assigned = qs.count()`. -/
def total_assigned (ems : List Emergency) (user : Nat) : Nat :=
  (assignedQs ems user).length

/-- `resolved = qs.filter(status="resolved").count()`. -/
def resolved_count (ems : List Emergency) (user : Nat) : Nat :=
  ((assignedQs ems user).filter fun e => e.status = "resolved").length

/-- `resolution_rate = (resolved / total_assigned * 100) if total_assigned
else 0.0` (`core/utils.py` line 58, before rounding). -/
def resolution_rate (ems : List Emergency) (user : Nat) : ℚ :=
  if total_assigned ems user ≠ 0 then
    (resolved_count ems user : ℚ) / (total_assigned ems user : ℚ) * 100
  else 0

/-- Python `round(x, 2)`.  Python rounds ties to even; `round` here rounds
ties up — the two agree except at exact ties, on which no proved property
depends. -/
def round2 (q : ℚ) : ℚ := (round (q * 100) : ℚ) / 100

/-- Mean of a list of durations; `Avg` returns NULL on an empty set and the
code coalesces it with `or timedelta(0)`. -/
def listAvg (l : List ℚ) : ℚ :=
  if l.length = 0 then 0 else l.sum / (l.length : ℚ)

/-- `qs.exclude(acknowledged_at__isnull=True)` annotated with
`acknowledged_at - created_at`. -/
def responseTimes (ems : List Emergency) (user : Nat) : List ℚ :=
  (assignedQs ems user).filterMap fun e =>
    e.acknowledged_at.map fun a => (a : ℚ) - (e.created_at : ℚ)

/-- `qs.exclude(resolved_at__isnull=True)` annotated with
`resolved_at - created_at`. -/
def resolutionTimes (ems : List Emergency) (user : Nat) : List ℚ :=
  (assignedQs ems user).filterMap fun e =>
    e.resolved_at.map fun r => (r : ℚ) - (e.created_at : ℚ)

/-- The values computed by `recalc_staff_performance` (lines 53-82 plus the
`round(resolution_rate, 2)` applied when the result is assembled). -/
structure PerfValues where
  total_assigned : Nat
  resolved : Nat
  resolution_rate : ℚ
  avg_response_time : ℚ
  avg_resolution_time : ℚ
deriving DecidableEq, Repr

def recalcValues (ems : List Emergency) (user : Nat) : PerfValues :=
  { total_assigned := total_assigned ems user
    resolved := resolved_count ems user
    resolution_rate := round2 (resolution_rate ems user)
    avg_response_time := listAvg (responseTimes ems user)
    avg_resolution_time := listAvg (resolutionTimes ems user) }

/-- Result of a `store=False` call: the returned dict (lines 100-110);
`last_updated` is `None` there. -/
structure RecalcDict where
  staff : Nat
  values : PerfValues
  satisfaction_percent : ℚ := 0
  rating : ℚ := 0
  last_updated : Option Nat := none
deriving DecidableEq, Repr

/-- `core.utils.recalc_staff_performance(staff, store)`.
The statistics are computed first (lines 53-82).  With `store=True` the
code calls `StaffPerformance.objects.update_or_create(staff=staff, ...)`;
but `StaffPerformance.staff` is a `OneToOneField` to `User` while `staff`
is a `core.models.Staff` instance, and querying a related field with an
inst of an unrelated model raises
`ValueError: Cannot query ...: Must be "User" instance.` before any row is
read or written.  With `store=False` the dict is returned and the store is
untouched. -/
def recalc_staff_performance (s : Store) (staff : Staff) (store : Bool)
    (_tnow : Nat) : Store × Except ErrKind RecalcDict :=
  let vals := recalcValues s.emergencies staff.user
  if store then
    (s, .error .valueError)
  else
    (s, .ok { staff := staff.sid, values := vals })

/-!  ### Signal receivers (`core/signals.py`) and save semantics -/

/-- Message of the new-call fan-out (`core/signals.py` lines 34-35). -/
def newCallMessage (s : Store) (inst : Emergency) : String :=
  "New emergency in Room " ++ s.roomNumberOf inst.room ++ " (" ++
    inst.priority ++ ") - " ++
    (if inst.description = "" then "No details" else inst.description)

/-- The list comprehension of `handle_emergency_notifications` on creation
(lines 28-39): one notification per available staff, evaluating
`staff.role` for each element. -/
def staffNewCallNotifs (s : Store) (inst : Emergency) (tnow : Nat) :
    List Staff → Except ErrKind (List Notification)
  | [] => .ok []
  | staff :: rest => do
      let r ← staff.attr_role
      let tail ← staffNewCallNotifs s inst tnow rest
      .ok (mkNotification (some staff.user) r (some inst.eid) "new_call"
            (newCallMessage s inst) tnow :: tail)

/-- The `if instance.assigned_staff:` assignment block (lines 43-51). -/
def assignedStaffNotif (s : Store) (inst : Emergency) (tnow : Nat) :
    Except ErrKind Store := do
  let a ← inst.attr_assigned_staff
  match a with
  | some st => do
      let r ← st.attr_role
      .ok { s with notifs := s.notifs ++
        [mkNotification (some st.user) r (some inst.eid) "assignment"
          ("You have been assigned to emergency in Room " ++
            s.roomNumberOf inst.room) tnow] }
  | none => .ok s

/-- The resolved block (lines 53-76): info notification for the assigned
staff, then an update notification per admin user.  (The timestamp text of
the admin message is abstracted.) -/
def resolvedNotifs (s : Store) (inst : Emergency) (tnow : Nat) :
    Except ErrKind Store :=
  if inst.status = "resolved" then do
    let a ← inst.attr_assigned_staff
    let s₁ ← match a with
      | some st => do
          let r ← st.attr_role
          pure { s with notifs := s.notifs ++
            [mkNotification (some st.user) r (some inst.eid) "info"
              ("Emergency in Room " ++ s.roomNumberOf inst.room ++
                " resolved.") tnow] }
      | none => pure s
    let admins ← adminUsersByRole s₁
    pure { s₁ with notifs := s₁.notifs ++ admins.map (fun admin =>
      mkNotification (some admin) none (some inst.eid) "update"
        ("Emergency in Room " ++ s₁.roomNumberOf inst.room ++ " resolved.")
        tnow) }
  else .ok s

/-- The escalated block (lines 79-86): `user=instance.escalated_to` hands a
`Role` instance to the `user` foreign key of `Notification`, which raises
`ValueError` on instantiation. -/
def escalatedNotif (s : Store) (inst : Emergency) (_tnow : Nat) :
    Except ErrKind Store :=
  if inst.status = "escalated" ∧ inst.escalated_to.isSome then
    .error .valueError
  else .ok s

/-- `core.signals.handle_emergency_notifications` (post_save receiver,
registered first). -/
def handle_emergency_notifications (s : Store) (inst : Emergency)
    (created : Bool) (tnow : Nat) : Except ErrKind Store :=
  if created then
    match staffNewCallNotifs s inst tnow
        (s.staffs.filter fun st => st.is_available) with
    | .error e => .error e
    | .ok ns => .ok { s with notifs := s.notifs ++ ns }
  else do
    let s₁ ← assignedStaffNotif s inst tnow
    let s₂ ← resolvedNotifs s₁ inst tnow
    escalatedNotif s₂ inst tnow

/-- `core.signals.update_staff_performance_on_emergency_save` (post_save
receiver, registered second): `if instance.assigned_staff:` then
`recalc_staff_performance(instance.assigned_staff, store=True)`. -/
def update_staff_performance_on_emergency_save (s : Store)
    (inst : Emergency) (tnow : Nat) : Except ErrKind Store := do
  let a ← inst.attr_assigned_staff
  match a with
  | some st =>
      match recalc_staff_performance s st true tnow with
      | (_, .error e) => .error e
      | (s₁, .ok _) => .ok s₁
  | none => .ok s

/-- `Emergency.objects.create` / `emergency.save()`: the row write commits
(autocommit) and then the two post_save receivers run in registration
order; an exception raised by a receiver propagates to the caller while
the row write persists. -/
def emergencySave (s : Store) (e : Emergency) (created : Bool) (tnow : Nat) :
    Store × Option ErrKind :=
  let s₁ := if created then { s with emergencies := s.emergencies ++ [e] }
            else s.updateEmergency e
  match handle_emergency_notifications s₁ e created tnow with
  | .error err => (s₁, some err)
  | .ok s₂ =>
      match update_staff_performance_on_emergency_save s₂ e tnow with
      | .error err => (s₂, some err)
      | .ok s₃ => (s₃, none)

/-- Fan-out of `handle_room_notifications` (lines 103-113), evaluating
`staff.role` per element. -/
def roomUpdateNotifs (msg : String) (tnow : Nat) :
    List Staff → Except ErrKind (List Notification)
  | [] => .ok []
  | staff :: rest => do
      let r ← staff.attr_role
      let tail ← roomUpdateNotifs msg tnow rest
      .ok (mkNotification (some staff.user) r none "room_update" msg tnow :: tail)

/-- `core.signals.handle_room_notifications` (post_save receiver on Room):
on an update, both message branches build `instance.room.room_number`
(lines 98-101) — `Room` has no `room` attribute, so this raises
`AttributeError` before any notification is built. -/
def handle_room_notifications (s : Store) (inst : Room) (created : Bool)
    (tnow : Nat) : Except ErrKind Store :=
  if created then .ok s
  else do
    let r ← inst.attr_room
    let msg := if inst.is_occupied then
        "Room " ++ r.room_number ++ " is now occupied."
      else "Room " ++ r.room_number ++ " is now free."
    let ns ← roomUpdateNotifs msg tnow (s.staffs.filter fun st => st.is_available)
    .ok { s with notifs := s.notifs ++ ns }

/-- `room.save(...)` on an existing row: commit, then the Room receiver. -/
def roomSave (s : Store) (r : Room) (tnow : Nat) : Store × Option ErrKind :=
  let s₁ := s.updateRoom r
  match handle_room_notifications s₁ r false tnow with
  | .error err => (s₁, some err)
  | .ok s₂ => (s₂, none)

/-!  ### Views (`core/views.py`) -/

/-- `PatientViewSet.call` (lines 140-217), entered after the room has been
resolved from the payload (lines 156-179; a missing room returns 404
before anything is written).  `Emergency.objects.create` inserts the row
and runs the post_save receivers; an exception there escapes the endpoint
(HTTP 500) with the row already committed, so the room update below it
never runs. -/
def PatientViewSet.call (s : Store) (patient : Patient) (room : Room)
    (description priority : String) (eid tnow : Nat) : Store × Option ErrKind :=
  let emergency : Emergency :=
    { eid := eid, room := room.rid, patient := some patient.pid,
      description := description, priority := priority, status := "pending",
      created_by := none, created_at := tnow }
  match emergencySave s emergency true tnow with
  | (s₁, some err) => (s₁, some err)
  | (s₁, none) =>
      let rs := roomSave s₁ { room with last_call_priority := some priority } tnow
      match rs.2 with
      | some err => (rs.1, some err)
      | none =>
          -- lines 198-203: emergency.assigned_user is None here, so the
          -- performance block is skipped; lines 206-214: `send_notification`
          -- is not imported in views.py, so the call raises NameError,
          -- swallowed by `except Exception: pass`
          (rs.1, none)

/-- The active `EmergencyViewSet` queryset (views.py line 421):
`Emergency.objects.select_related("patient", "assigned_staff")...`.
`assigned_staff` is not a field of `Emergency`, and a restricted
`select_related` naming an invalid field raises
`FieldError: Invalid field name(s) given in select_related` whenever the
queryset is evaluated (Django >= 1.8; this project is on Django >= 2.0,
it uses `Count(..., filter=Q(...))`).  So every fetch of rows through
this queryset fails before any row is returned. -/
def EmergencyViewSet.querysetFetch (_s : Store) : Except ErrKind (List Emergency) :=
  .error .fieldError

/-- `self.get_object()` on the active `EmergencyViewSet`: evaluates the
viewset queryset — which raises `FieldError` — and would then select the
row with the requested id (404 when absent). -/
def EmergencyViewSet.get_object (s : Store) (eid : Nat) : Except ErrKind Emergency := do
  let rows ← EmergencyViewSet.querysetFetch s
  match rows.find? fun e => e.eid = eid with
  | some e => .ok e
  | none => .error .notFoundError

/-- `EmergencyViewSet.resolve` (lines 426-436): `self.get_object()` runs
first and raises `FieldError` from the invalid queryset before any read
or write, so the store is returned unchanged.  The continuation — set
only `status` (not `resolved_at`), save, check
`emergency.assigned_staff` — is translated but unreachable. -/
def EmergencyViewSet.resolve (s : Store) (eid : Nat) (tnow : Nat) :
    Store × Option ErrKind :=
  match EmergencyViewSet.get_object s eid with
  | .error err => (s, some err)
  | .ok emergency =>
      let e₁ := { emergency with status := "resolved" }
      match emergencySave s e₁ false tnow with
      | (s₁, some err) => (s₁, some err)
      | (s₁, none) =>
          match e₁.attr_assigned_staff with
          | .error err => (s₁, some err)
          | .ok (some st) =>
              match recalc_staff_performance s₁ st true tnow with
              | (s₂, .error err) => (s₂, some err)
              | (s₂, .ok _) => (s₂, none)
          | .ok none => (s₁, none)

/-- `if emergency.assigned_user and emergency.assigned_user != user:`
(line 711 of the commented-out accept action). -/
def assignedToOther (emergency : Emergency) (user : Nat) : Bool :=
  match emergency.assigned_user with
  | some au => au != user
  | none => false

inductive AcceptOutcome where
  /-- HTTP 403 "This emergency is assigned to someone else" — the
  `ConflictError` of the spec taxonomy. -/
  | conflict
  /-- An exception escaped the endpoint (HTTP 500). -/
  | failed (e : ErrKind)
  | accepted
deriving DecidableEq, Repr

/-- The `accept` action (views.py lines 706-719, the commented-out
`EmergencyViewSet` variant — the active viewset defines no accept action):
reject when assigned to someone else, otherwise set `accepted_by`,
`accepted_at = now()`, `status = "accepted"` and save. -/
def EmergencyViewSet.accept (s : Store) (emergency : Emergency)
    (user tnow : Nat) : Store × AcceptOutcome :=
  if assignedToOther emergency user then
    (s, .conflict)
  else
    let e₁ := { emergency with
      accepted_by := some user
      accepted_at := some tnow
      status := "accepted" }
    match emergencySave s e₁ false tnow with
    | (s₁, some err) => (s₁, .failed err)
    | (s₁, none) =>
        (send_notification s₁ "accepted emergency" (some emergency.eid)
          none none "update" tnow, .accepted)

/-- `NotificationViewSet.mark_read` (lines 837-845). -/
def NotificationViewSet.mark_read (n : Notification) (tnow : Nat) : Notification :=
  if n.is_read = false then { n with is_read := true, read_at := some tnow }
  else n

/-- `NotificationViewSet.mark_unread` (lines 847-855). -/
def NotificationViewSet.mark_unread (n : Notification) : Notification :=
  if n.is_read then { n with is_read := false, read_at := none }
  else n

/-- The read/read_at coherence of a notification: `read_at` is set iff
`is_read` is true. -/
def readConsistent (n : Notification) : Bool :=
  n.is_read == n.read_at.isSome

def exRoom : Room := { rid := 1, room_number := "101" }

def exCancelled : Emergency := { eid := 5, room := 1, status := "cancelled" }

def exStore1 : Store := { rooms := [exRoom], emergencies := [exCancelled] }

def exStaff : Staff := { sid := 2, user := 21, is_available := true }

def exPatient : Patient := { pid := 3, full_name := "Jane Doe" }

def exRoom2 : Room := { rid := 4, room_number := "R101" }

def exStore2 : Store := { rooms := [exRoom2], patients := [exPatient], staffs := [exStaff] }

def exPending : Emergency := { eid := 7, room := 1, status := "pending" }

def exStore3 : Store := { rooms := [exRoom], emergencies := [exPending] }

def exAssignedOther : Emergency := { eid := 11, room := 1, assigned_user := some 7 }

def exStore4 : Store := { emergencies := [exAssignedOther] }

def exUnassigned : Emergency := { eid := 12, room := 1 }

def exStore4b : Store := { emergencies := [exUnassigned] }

def exAssignedEm : Emergency :=
  { eid := 1, room := 1, assigned_user := some 21, status := "pending" }

def exNotif : Notification := {}

/-- Saving an Emergency always commits the row write and then fails with
`AttributeError` from the first failing receiver, whatever the store and
whether the save is a create or an update. -/
theorem emergencySave_eq (s : Store) (e : Emergency) (created : Bool) (t : Nat) :
    emergencySave s e created t =
      ((if created then { s with emergencies := s.emergencies ++ [e] }
        else s.updateEmergency e), some ErrKind.attributeError) := by
  cases created with
  | false => rfl
  | true =>
    unfold emergencySave handle_emergency_notifications
    simp only [if_true]
    cases h : ({ s with emergencies := s.emergencies ++ [e] } : Store).staffs.filter
        (fun st => st.is_available) with
    | nil =>
      simp [h, staffNewCallNotifs, update_staff_performance_on_emergency_save,
        Emergency.attr_assigned_staff, Bind.bind, Except.bind]
    | cons a l =>
      simp [h, staffNewCallNotifs, Staff.attr_role, Bind.bind, Except.bind]

/-- Evaluation of `PatientViewSet.call`: the emergency row is inserted and
the request dies with `AttributeError`; nothing else changes. -/
theorem call_eq (s : Store) (p : Patient) (room : Room) (d pr : String)
    (eid t : Nat) :
    PatientViewSet.call s p room d pr eid t =
      ({ s with emergencies := s.emergencies ++
          [{ eid := eid, room := room.rid, patient := some p.pid, description := d,
             priority := pr, status := "pending", created_by := none, created_at := t }] },
        some ErrKind.attributeError) := by
  simp only [PatientViewSet.call, emergencySave_eq]
  simp

/-- Evaluation of `EmergencyViewSet.resolve`: `get_object()` raises
`FieldError` while evaluating the invalid queryset, before any read or
write, so the store is returned untouched. -/
theorem resolve_eq (s : Store) (eid t : Nat) :
    EmergencyViewSet.resolve s eid t = (s, some ErrKind.fieldError) := rfl

theorem resolved_le_total (ems : List Emergency) (u : Nat) :
    resolved_count ems u ≤ total_assigned ems u :=
  List.length_filter_le _ _

theorem rate_nonneg (ems : List Emergency) (u : Nat) : 0 ≤ resolution_rate ems u := by
  unfold resolution_rate
  split
  · positivity
  · exact le_refl 0

theorem rate_le_100 (ems : List Emergency) (u : Nat) : resolution_rate ems u ≤ 100 := by
  unfold resolution_rate
  split
  case isTrue h =>
    have hle : (resolved_count ems u : ℚ) ≤ (total_assigned ems u : ℚ) := by
      exact_mod_cast resolved_le_total ems u
    have hpos : (0 : ℚ) < (total_assigned ems u : ℚ) := by
      have : 0 < total_assigned ems u := Nat.pos_of_ne_zero h
      exact_mod_cast this
    have h1 : (resolved_count ems u : ℚ) / (total_assigned ems u : ℚ) ≤ 1 :=
      (div_le_one hpos).mpr hle
    calc (resolved_count ems u : ℚ) / (total_assigned ems u : ℚ) * 100
        ≤ 1 * 100 := by nlinarith
      _ = 100 := by norm_num
  case isFalse h => norm_num

/-- The unrounded rate of `core/utils.py` line 58 is zero exactly when
the resolved count is zero, not only when `total_assigned` is zero. -/
theorem rate_zero_iff (ems : List Emergency) (u : Nat) :
    resolution_rate ems u = 0 ↔ resolved_count ems u = 0 := by
  unfold resolution_rate
  split
  case isTrue h =>
    have hpos : (0 : ℚ) < (total_assigned ems u : ℚ) := by
      have : 0 < total_assigned ems u := Nat.pos_of_ne_zero h
      exact_mod_cast this
    constructor
    · intro h0
      rcases mul_eq_zero.mp h0 with h2 | h2
      · rcases div_eq_zero_iff.mp h2 with h3 | h3
        · exact_mod_cast h3
        · exact absurd h3 (ne_of_gt hpos)
      · norm_num at h2
    · intro h0
      rw [h0]
      norm_num
  case isFalse h =>
    have h0 : total_assigned ems u = 0 := by omega
    have := resolved_le_total ems u
    constructor
    · intro _; omega
    · intro _; rfl

theorem round2_nonneg {q : ℚ} (h : 0 ≤ q) : 0 ≤ round2 q := by
  unfold round2
  have h1 : (0 : ℤ) ≤ round (q * 100) := by
    rw [round_eq]
    have : (0 : ℚ) ≤ q * 100 + 1 / 2 := by nlinarith
    have := Int.floor_le_floor (α := ℚ) (by simpa using this)
    simpa using this
  positivity

theorem round2_le_100 {q : ℚ} (h : q ≤ 100) : round2 q ≤ 100 := by
  unfold round2
  have h1 : round (q * 100) ≤ 10000 := by
    rw [round_eq]
    have hlt : q * 100 + 1 / 2 < 10001 := by nlinarith
    have := (Int.floor_lt (α := ℚ) (z := 10001)).mpr (by exact_mod_cast hlt)
    omega
  rw [div_le_iff₀ (by norm_num : (0:ℚ) < 100)]
  calc (round (q * 100) : ℚ) ≤ 10000 := by exact_mod_cast h1
    _ = 100 * 100 := by norm_num

theorem round2_zero : round2 0 = 0 := by simp [round2]

/-- Claim C1, counterexample.  The claim states that any transition from a
terminal status (here: the resolve endpoint on a cancelled emergency)
fails with `InvalidTransitionError`.  On the code, the failure is a
`FieldError` raised by `get_object()` while evaluating the viewset
queryset with the invalid `select_related("assigned_staff")` — not an
`InvalidTransitionError` (which does not exist) — although the store is
indeed left unchanged. -/
theorem C1_counterexample :
    exCancelled.status = "cancelled" ∧
    exCancelled ∈ exStore1.emergencies ∧
    (EmergencyViewSet.resolve exStore1 exCancelled.eid 3).2 = some ErrKind.fieldError ∧
    (EmergencyViewSet.resolve exStore1 exCancelled.eid 3).2
      ≠ some ErrKind.invalidTransitionError := by
  decide

/-- Claim C1, amended.  Resolving an emergency whose status is terminal
(resolved or cancelled) fails and leaves every field of every record
unchanged, but the failure is a `FieldError` raised before any read or
write by the invalid `select_related("assigned_staff")` in the viewset
queryset — never an `InvalidTransitionError`, which does not exist in
the code (no terminal-status check is ever reached). -/
theorem C1_resolve_from_terminal (s : Store) (em : Emergency) (t : Nat)
    (_h : em ∈ s.emergencies ∧ (em.status = "resolved" ∨ em.status = "cancelled")) :
    EmergencyViewSet.resolve s em.eid t = (s, some ErrKind.fieldError) ∧
    (EmergencyViewSet.resolve s em.eid t).2 ≠ some ErrKind.invalidTransitionError := by
  refine ⟨resolve_eq s em.eid t, ?_⟩
  rw [resolve_eq]
  simp

/-- Claim C1, witness: the theorem applied to the cancelled emergency of
`exStore1`. -/
theorem C1_witness :
    EmergencyViewSet.resolve exStore1 exCancelled.eid 3 = (exStore1, some ErrKind.fieldError) ∧
    (EmergencyViewSet.resolve exStore1 exCancelled.eid 3).2
      ≠ some ErrKind.invalidTransitionError :=
  C1_resolve_from_terminal exStore1 exCancelled 3 ⟨by decide, Or.inr rfl⟩

/-- Claim C2, counterexample.  The claim states that creating an emergency
in a store with N available staff and no pre-existing notifications
creates exactly N `new_call` notifications and copies the priority into
`Room.last_call_priority`.  In `exStore2` there is N = 1 available staff
and no notification, yet the call creates zero notifications (the
fan-out comprehension raises `AttributeError` at `staff.role` before
`bulk_create` runs) and the room row is left untouched. -/
theorem C2_counterexample :
    (exStore2.staffs.filter fun st => st.is_available).length = 1 ∧
    exStore2.notifs = [] ∧
    ¬ ((PatientViewSet.call exStore2 exPatient exRoom2 "fall risk" "high" 10 0).1.notifs.length = 1) ∧
    ¬ ((PatientViewSet.call exStore2 exPatient exRoom2 "fall risk" "high" 10 0).1.rooms.map
        Room.last_call_priority = [some "high"]) := by
  decide

/-- Claim C2, amended.  `PatientViewSet.call` inserts the Emergency row
with status "pending" (and that insert persists), but the post_save
receivers then raise `AttributeError` (`staff.role` when at least one
staff member is available, `instance.assigned_staff` otherwise), so the
request fails, no notification row is ever created, and
`Room.last_call_priority` is never updated. -/
theorem C2_call_create_effects (s : Store) (p : Patient) (room : Room)
    (d pr : String) (eid t : Nat) :
    PatientViewSet.call s p room d pr eid t =
      ({ s with emergencies := s.emergencies ++
          [{ eid := eid, room := room.rid, patient := some p.pid, description := d,
             priority := pr, status := "pending", created_by := none, created_at := t }] },
        some ErrKind.attributeError) ∧
    (PatientViewSet.call s p room d pr eid t).1.notifs = s.notifs ∧
    (PatientViewSet.call s p room d pr eid t).1.rooms = s.rooms := by
  refine ⟨call_eq s p room d pr eid t, ?_, ?_⟩ <;> rw [call_eq]

/-- Claim C3, counterexample.  The claim states that resolving a
non-terminal emergency sets `resolved_at` to the current time, creates an
info notification for the assigned user and update notifications for
admins, and recalculates performance.  On the code, resolving the pending
emergency of `exStore3` leaves `resolved_at` unset, creates no
notification, touches no performance row, and the request fails with
`AttributeError`. -/
theorem C3_counterexample :
    exPending.status = "pending" ∧
    exPending ∈ exStore3.emergencies ∧
    ((EmergencyViewSet.resolve exStore3 exPending.eid 9).1.emergencies.map
        Emergency.resolved_at = [none]) ∧
    ((EmergencyViewSet.resolve exStore3 exPending.eid 9).1.emergencies.map
        Emergency.status = ["pending"]) ∧
    (EmergencyViewSet.resolve exStore3 exPending.eid 9).1.notifs = [] ∧
    (EmergencyViewSet.resolve exStore3 exPending.eid 9).1.perfs = [] ∧
    (EmergencyViewSet.resolve exStore3 exPending.eid 9).2 = some ErrKind.fieldError := by
  decide

/-- Claim C3, amended.  For a non-terminal emergency, resolve performs
none of the claimed effects: `self.get_object()` raises `FieldError`
while evaluating the viewset queryset with the invalid
`select_related("assigned_staff")`, before any read or write — so
`resolved_at` and `status` are untouched, no info/update notification is
created, no performance recalculation runs, and the request fails with
that `FieldError`. -/
theorem C3_resolve_nonterminal (s : Store) (em : Emergency) (t : Nat)
    (_h : em ∈ s.emergencies ∧ em.status ≠ "resolved" ∧ em.status ≠ "cancelled") :
    EmergencyViewSet.resolve s em.eid t = (s, some ErrKind.fieldError) ∧
    (EmergencyViewSet.resolve s em.eid t).1.emergencies = s.emergencies ∧
    (EmergencyViewSet.resolve s em.eid t).1.notifs = s.notifs ∧
    (EmergencyViewSet.resolve s em.eid t).1.perfs = s.perfs := by
  exact ⟨resolve_eq s em.eid t, rfl, rfl, rfl⟩

/-- Claim C3, witness: the theorem applied to the pending emergency of
`exStore3`. -/
theorem C3_witness :
    EmergencyViewSet.resolve exStore3 exPending.eid 9 = (exStore3, some ErrKind.fieldError) ∧
    (EmergencyViewSet.resolve exStore3 exPending.eid 9).1.emergencies = exStore3.emergencies ∧
    (EmergencyViewSet.resolve exStore3 exPending.eid 9).1.notifs = exStore3.notifs ∧
    (EmergencyViewSet.resolve exStore3 exPending.eid 9).1.perfs = exStore3.perfs :=
  C3_resolve_nonterminal exStore3 exPending 9 (by decide)

/-- Claim C4: the accept action (views.py lines 706-719).  If
`assigned_user` is set and differs from the acting user, the request is
rejected (HTTP 403, the spec's `ConflictError`) and the store is
unchanged.  Otherwise `accepted_by` is set to the actor, `accepted_at` to
the current time and the status to "accepted", and that row write is
committed (the receiver then raises `AttributeError`, which does not
undo the committed write). -/
theorem C4_accept_behaviour (s : Store) (em : Emergency) (u t : Nat) :
    (∀ au, em.assigned_user = some au → au ≠ u →
      EmergencyViewSet.accept s em u t = (s, AcceptOutcome.conflict)) ∧
    ((em.assigned_user = none ∨ em.assigned_user = some u) →
      EmergencyViewSet.accept s em u t =
        (s.updateEmergency
          { em with
            accepted_by := some u
            accepted_at := some t
            status := "accepted" },
         AcceptOutcome.failed ErrKind.attributeError)) := by
  constructor
  · intro au hau hne
    have hb : assignedToOther em u = true := by simp [assignedToOther, hau, hne]
    simp [EmergencyViewSet.accept, hb]
  · intro hcase
    have hb : assignedToOther em u = false := by
      rcases hcase with h | h <;> simp [assignedToOther, h]
    simp [EmergencyViewSet.accept, hb, emergencySave_eq]

/-- Claim C4, witness: the conflict case on an emergency assigned to user
7 with actor 9, and the success case on an unassigned emergency. -/
theorem C4_witness :
    EmergencyViewSet.accept exStore4 exAssignedOther 9 2 = (exStore4, AcceptOutcome.conflict) ∧
    EmergencyViewSet.accept exStore4b exUnassigned 9 2 =
      (exStore4b.updateEmergency
        { exUnassigned with
          accepted_by := some 9
          accepted_at := some 2
          status := "accepted" },
       AcceptOutcome.failed ErrKind.attributeError) :=
  ⟨(C4_accept_behaviour exStore4 exAssignedOther 9 2).1 7 rfl (by decide),
   (C4_accept_behaviour exStore4b exUnassigned 9 2).2 (Or.inl rfl)⟩

/-- Claim C5, counterexample.  The claim states the rate equals 0.0
exactly when `total_assigned = 0`.  For one assigned, unresolved emergency
the stored rate is 0.0 while `total_assigned = 1`. -/
theorem C5_counterexample :
    ¬ ((round2 (resolution_rate [exAssignedEm] 21) = 0)
        ↔ total_assigned [exAssignedEm] 21 = 0) := by
  have h1 : resolution_rate [exAssignedEm] 21 = 0 := by
    simp [resolution_rate, total_assigned, resolved_count, assignedQs, exAssignedEm]
  intro hiff
  have h2 : round2 (resolution_rate [exAssignedEm] 21) = 0 := by
    rw [h1]; simp [round2]
  have h3 := hiff.mp h2
  simp [total_assigned, assignedQs, exAssignedEm] at h3

/-- Claim C5, amended.  The stored resolution rate always lies in
[0, 100]; it is 0.0 whenever `total_assigned = 0`, and (before rounding)
it is 0.0 exactly when the resolved count is 0 — so a staff with
assignments but no resolved call also scores 0.0. -/
theorem C5_rate_bounds (ems : List Emergency) (u : Nat) :
    0 ≤ round2 (resolution_rate ems u) ∧
    round2 (resolution_rate ems u) ≤ 100 ∧
    (total_assigned ems u = 0 → round2 (resolution_rate ems u) = 0) ∧
    (resolution_rate ems u = 0 ↔ resolved_count ems u = 0) := by
  refine ⟨round2_nonneg (rate_nonneg ems u), round2_le_100 (rate_le_100 ems u), ?_, rate_zero_iff ems u⟩
  intro h0
  have hrc : resolved_count ems u = 0 := by
    have := resolved_le_total ems u
    omega
  rw [(rate_zero_iff ems u).mpr hrc]
  exact round2_zero

/-- Claim C5, witness: the theorem applied to an empty emergency list,
discharging `total_assigned = 0` and `resolved_count = 0`. -/
theorem C5_witness :
    round2 (resolution_rate [] 0) = 0 ∧ resolution_rate [] 0 = 0 :=
  ⟨(C5_rate_bounds [] 0).2.2.1 rfl, ((C5_rate_bounds [] 0).2.2.2).mpr rfl⟩

/-- Claim C6: the recalculation is idempotent.  The returned values are a
function of the Emergency rows alone: two stores with the same rows give
the same result, and a second call after a first call (which does not
touch the rows) returns the identical result. -/
theorem C6_recalc_idempotent (s₁ s₂ : Store) (staff : Staff) (t₁ t₂ : Nat)
    (h : s₁.emergencies = s₂.emergencies) :
    (recalc_staff_performance s₁ staff false t₁).2
      = (recalc_staff_performance s₂ staff false t₂).2 ∧
    (recalc_staff_performance (recalc_staff_performance s₁ staff false t₁).1 staff false t₂).2
      = (recalc_staff_performance s₁ staff false t₁).2 ∧
    recalcValues s₁.emergencies staff.user = recalcValues s₂.emergencies staff.user := by
  unfold recalc_staff_performance
  simp [h]

/-- Claim C6, witness: two successive calls on `exStore1` agree. -/
theorem C6_witness :
    (recalc_staff_performance exStore1 exStaff false 1).2
      = (recalc_staff_performance exStore1 exStaff false 2).2 ∧
    (recalc_staff_performance (recalc_staff_performance exStore1 exStaff false 1).1
        exStaff false 2).2
      = (recalc_staff_performance exStore1 exStaff false 1).2 ∧
    recalcValues exStore1.emergencies exStaff.user
      = recalcValues exStore1.emergencies exStaff.user :=
  C6_recalc_idempotent exStore1 exStore1 exStaff 1 2 rfl

/-- Claim C7: a `store=False` call returns the computed result and
mutates nothing — the store (performance rows included) is returned
exactly as it was. -/
theorem C7_recalc_transient_no_mutation (s : Store) (staff : Staff) (t : Nat) :
    (recalc_staff_performance s staff false t).1 = s ∧
    (recalc_staff_performance s staff false t).2 =
      .ok { staff := staff.sid, values := recalcValues s.emergencies staff.user } :=
  ⟨rfl, rfl⟩

/-- Claim C8: `read_at` is set iff `is_read` is true.  Every freshly
created notification satisfies the invariant, and `mark_read` /
`mark_unread` preserve it. -/
theorem C8_read_invariant :
    (∀ u r em ty msg t, readConsistent (mkNotification u r em ty msg t) = true) ∧
    (∀ n t, readConsistent n = true →
      readConsistent (NotificationViewSet.mark_read n t) = true) ∧
    (∀ n, readConsistent n = true →
      readConsistent (NotificationViewSet.mark_unread n) = true) := by
  refine ⟨fun u r em ty msg t => rfl, fun n t h => ?_, fun n h => ?_⟩
  · cases hr : n.is_read
    · simp [NotificationViewSet.mark_read, readConsistent, hr]
    · simpa [NotificationViewSet.mark_read, readConsistent, hr] using h
  · cases hr : n.is_read
    · simpa [NotificationViewSet.mark_unread, readConsistent, hr] using h
    · simp [NotificationViewSet.mark_unread, readConsistent, hr]

/-- Claim C8, witness: the invariant holds after marking the default
notification read, and after marking it unread. -/
theorem C8_witness :
    readConsistent (NotificationViewSet.mark_read exNotif 5) = true ∧
    readConsistent (NotificationViewSet.mark_unread exNotif) = true :=
  ⟨C8_read_invariant.2.1 exNotif 5 rfl, C8_read_invariant.2.2 exNotif rfl⟩

/-- Claim C9: every Emergency save runs the post_save receivers and fails
with `AttributeError`: `update_staff_performance_on_emergency_save`
evaluates `instance.assigned_staff` (undefined on the model) on every
save, and `handle_emergency_notifications` evaluates `staff.role`
(undefined on `Staff`) on every create with at least one available staff
member. -/
theorem C9_receivers_attribute_error (s : Store) (em : Emergency)
    (created : Bool) (t : Nat) :
    update_staff_performance_on_emergency_save s em t
      = .error ErrKind.attributeError ∧
    (emergencySave s em created t).2 = some ErrKind.attributeError ∧
    ((s.staffs.filter fun st => st.is_available) ≠ [] →
      handle_emergency_notifications s em true t = .error ErrKind.attributeError) := by
  refine ⟨rfl, by rw [emergencySave_eq], fun hne => ?_⟩
  unfold handle_emergency_notifications
  cases h : s.staffs.filter (fun st => st.is_available) with
  | nil => exact absurd h hne
  | cons a l => simp [h, staffNewCallNotifs, Staff.attr_role, Bind.bind, Except.bind]

/-- Claim C9, witness: the fan-out receiver fails on `exStore2` (one
available staff member), and the save of a pending emergency reports
`AttributeError`. -/
theorem C9_witness :
    handle_emergency_notifications exStore2 exPending true 4
      = .error ErrKind.attributeError ∧
    (emergencySave exStore2 exPending true 4).2 = some ErrKind.attributeError :=
  ⟨(C9_receivers_attribute_error exStore2 exPending true 4).2.2 (by decide),
   (C9_receivers_attribute_error exStore2 exPending true 4).2.1⟩

